import Mathlib

/-!
# Verification of the Light-sim 2D ray-tracing core

A shallow embedding of the geometric optics engine (`app/optics/vec2.py`,
`transform.py`, `elements.py`, `analysis.py`, `simulate.py`) over the real
numbers, together with theorems settling the frozen claims about it.

Python floats are idealized as real numbers; `math.hypot x y` is
`Real.sqrt (x^2 + y^2)`; Python's exact float literals `1e-12`, `1e-9`,
`1e-6`, `1e-15` are the corresponding exact rationals.
-/

noncomputable section

open Real

/-- 2D vector, from `vec2.py` (`Vec2`). -/
structure Vec2 where
  x : ℝ
  y : ℝ

instance : Add Vec2 := ⟨fun a b => ⟨a.x + b.x, a.y + b.y⟩⟩

instance : Sub Vec2 := ⟨fun a b => ⟨a.x - b.x, a.y - b.y⟩⟩

/-- `Vec2.__mul__`: scaling by a scalar. -/
def Vec2.smul (v : Vec2) (s : ℝ) : Vec2 := ⟨v.x * s, v.y * s⟩

/-- `Vec2.dot`. -/
def Vec2.dot (a b : Vec2) : ℝ := a.x * b.x + a.y * b.y

/-- `Vec2.norm`: `math.hypot(x, y)`. -/
def Vec2.norm (v : Vec2) : ℝ := Real.sqrt (v.x ^ 2 + v.y ^ 2)

/-- `Vec2.normalized`: zero vector normalizes to the zero vector. -/
def Vec2.normalized (v : Vec2) : Vec2 :=
  if v.norm = 0 then ⟨0, 0⟩ else ⟨v.x / v.norm, v.y / v.norm⟩

/-- `Vec2.perp`: 90° rotation. -/
def Vec2.perp (v : Vec2) : Vec2 := ⟨-v.y, v.x⟩

/-- `vec2.rotate`: standard 2D rotation matrix. -/
def rotate (v : Vec2) (θ : ℝ) : Vec2 :=
  ⟨Real.cos θ * v.x - Real.sin θ * v.y, Real.sin θ * v.x + Real.cos θ * v.y⟩

/-- Rigid pose, from `transform.py` (`Pose2`). -/
structure Pose2 where
  pos : Vec2
  theta : ℝ

def Pose2.world_to_local (P : Pose2) (p : Vec2) : Vec2 := rotate (p - P.pos) (-P.theta)

def Pose2.local_to_world (P : Pose2) (p : Vec2) : Vec2 := rotate p P.theta + P.pos

def Pose2.dir_world_to_local (P : Pose2) (d : Vec2) : Vec2 := rotate d (-P.theta)

def Pose2.dir_local_to_world (P : Pose2) (d : Vec2) : Vec2 := rotate d P.theta

/-- Snell's-law refraction of `elements.py` (`refract_dir`); `none` signals
total internal reflection. -/
def refract_dir (d_in n : Vec2) (n1 n2 : ℝ) : Option Vec2 :=
  let d := d_in.normalized
  let nn := n.normalized
  let eta := n1 / n2
  let cos1 := -(nn.dot d)
  let k := 1 - eta * eta * (1 - cos1 * cos1)
  if k < 0 then none
  else
    let cos2 := Real.sqrt (max 0 k)
    some ((d.smul eta + nn.smul (eta * cos1 - cos2)).normalized)

/-- Intersection record, from `elements.py` (`Hit`). -/
structure Hit where
  t : ℝ
  p_world : Vec2
  n_world : Vec2
  element_id : String
  element_type : String

/-- `elements.py` (`FresnelThinLens`). -/
structure FresnelThinLens where
  id : String
  pose : Pose2
  f : ℝ
  aperture : ℝ

/-- `FresnelThinLens.intersect`: lens plane is x = 0 in local coordinates. -/
def FresnelThinLens.intersect (L : FresnelThinLens) (ro rd : Vec2) : Option Hit :=
  let ro_l := L.pose.world_to_local ro
  let rd_l := L.pose.dir_world_to_local rd
  if |rd_l.x| < 1e-12 then none
  else
    let t := -ro_l.x / rd_l.x
    if t ≤ 1e-9 then none
    else
      let p_l : Vec2 := ⟨ro_l.x + t * rd_l.x, ro_l.y + t * rd_l.y⟩
      if L.aperture / 2 < |p_l.y| then none
      else
        some ⟨t, L.pose.local_to_world p_l,
          (L.pose.dir_local_to_world ⟨1, 0⟩).normalized, L.id, ("lens")⟩

/-- `FresnelThinLens.transmit`: paraxial thin-lens law `m2 = m - y/f`. -/
def FresnelThinLens.transmit (L : FresnelThinLens) (p_world rd_world : Vec2) : Vec2 :=
  let p_l := L.pose.world_to_local p_world
  let d_l := (L.pose.dir_world_to_local rd_world).normalized
  let sgn : ℝ := if 0 ≤ d_l.x then 1 else -1
  let dx := if |d_l.x| < 1e-12 then 1e-12 * sgn else d_l.x
  let m := d_l.y / dx
  let m2 := m - p_l.y / L.f
  let d2_l := (Vec2.mk sgn m2).normalized
  (L.pose.dir_local_to_world d2_l).normalized

/-- `elements.py` (`FresnelFacetLens`). -/
structure FresnelFacetLens where
  id : String
  pose : Pose2
  f : ℝ
  aperture : ℝ
  n1 : ℝ
  n2 : ℝ

/-- `FresnelFacetLens.intersect` (same plane test as the thin lens). -/
def FresnelFacetLens.intersect (L : FresnelFacetLens) (ro rd : Vec2) : Option Hit :=
  let ro_l := L.pose.world_to_local ro
  let rd_l := L.pose.dir_world_to_local rd
  if |rd_l.x| < 1e-12 then none
  else
    let t := -ro_l.x / rd_l.x
    if t ≤ 1e-9 then none
    else
      let p_l : Vec2 := ⟨ro_l.x + t * rd_l.x, ro_l.y + t * rd_l.y⟩
      if L.aperture / 2 < |p_l.y| then none
      else
        some ⟨t, L.pose.local_to_world p_l,
          (L.pose.dir_local_to_world ⟨1, 0⟩).normalized, L.id, ("lens")⟩

/-- `FresnelFacetLens.transmit`: Snell-based redirection toward the focal
point, with specular-reflection fallback on total internal reflection. -/
def FresnelFacetLens.transmit (L : FresnelFacetLens) (p_world rd_world : Vec2) : Vec2 :=
  let p_l := L.pose.world_to_local p_world
  let d_l := (L.pose.dir_world_to_local rd_world).normalized
  let sgn : ℝ := if 0 ≤ d_l.x then 1 else -1
  let target := (Vec2.mk (sgn * L.f) (-p_l.y)).normalized
  let n_l1 := (d_l.smul L.n1 - target.smul L.n2).normalized
  if n_l1.norm = 0 then (L.pose.dir_local_to_world target).normalized
  else
    let n_l := if 0 < d_l.dot n_l1 then n_l1.smul (-1) else n_l1
    let d2_l :=
      match refract_dir d_l n_l L.n1 L.n2 with
      | some v => v
      | none => (d_l - n_l.smul (2 * d_l.dot n_l)).normalized
    (L.pose.dir_local_to_world d2_l).normalized

/-- `elements.py` (`ConicMirror`). -/
structure ConicMirror where
  id : String
  pose : Pose2
  R : ℝ
  kappa : ℝ
  aperture : ℝ

/-- `ConicMirror.intersect`: implicit curve `y² - 2Rx + (1+κ)x² = 0` in local
coordinates; quadratic in `t` with a linear fallback when `A ≈ 0`; among real
roots keeps `t > 1e-9`, `x ≥ -1e-9`, `|y| ≤ aperture/2` and selects the
smallest qualifying `t`. -/
def ConicMirror.intersect (M : ConicMirror) (ro rd : Vec2) : Option Hit :=
  let ro_l := M.pose.world_to_local ro
  let rd_l := (M.pose.dir_world_to_local rd).normalized
  let y0 := ro_l.y
  let x0 := ro_l.x
  let dy := rd_l.y
  let dx := rd_l.x
  let k1 := 1 + M.kappa
  let R := M.R
  let A := dy * dy + k1 * (dx * dx)
  let B := 2 * y0 * dy - 2 * R * dx + 2 * k1 * x0 * dx
  let C := y0 * y0 - 2 * R * x0 + k1 * (x0 * x0)
  let tsOpt : Option (List ℝ) :=
    if |A| < 1e-12 then
      if |B| < 1e-12 then none else some [-C / B]
    else
      let disc := B * B - 4 * A * C
      if disc < 0 then none
      else
        let s := Real.sqrt disc
        some [(-B - s) / (2 * A), (-B + s) / (2 * A)]
  match tsOpt with
  | none => none
  | some ts =>
      let best := ts.foldl (fun acc t =>
        if t ≤ 1e-9 then acc
        else
          let p_l : Vec2 := ⟨x0 + t * dx, y0 + t * dy⟩
          if p_l.x < -1e-9 then acc
          else if M.aperture / 2 < |p_l.y| then acc
          else
            match acc with
            | none => some (t, p_l)
            | some tp => if t < tp.1 then some (t, p_l) else acc) none
      match best with
      | none => none
      | some tp =>
          let n_l := (Vec2.mk (-2 * R + 2 * k1 * tp.2.x) (2 * tp.2.y)).normalized
          some ⟨tp.1, M.pose.local_to_world tp.2,
            (M.pose.dir_local_to_world n_l).normalized, M.id, ("mirror")⟩

/-- `ConicMirror.reflect`: specular reflection `d - 2(d·n)n` (re-normalized). -/
def ConicMirror.reflect (_M : ConicMirror) (rd_world n_world : Vec2) : Vec2 :=
  let d := rd_world.normalized
  let n := n_world.normalized
  (d - n.smul (2 * d.dot n)).normalized

/-- `elements.py` (`Sensor`): line segment detector. -/
structure Sensor where
  id : String
  pose : Pose2
  length : ℝ

/-- `Sensor.intersect`: segment x = 0, `|y| ≤ length/2` in local coordinates. -/
def Sensor.intersect (S : Sensor) (ro rd : Vec2) : Option Hit :=
  let ro_l := S.pose.world_to_local ro
  let rd_l := (S.pose.dir_world_to_local rd).normalized
  if |rd_l.x| < 1e-12 then none
  else
    let t := -ro_l.x / rd_l.x
    if t ≤ 1e-9 then none
    else
      let p_l : Vec2 := ⟨ro_l.x + t * rd_l.x, ro_l.y + t * rd_l.y⟩
      if S.length / 2 < |p_l.y| then none
      else
        some ⟨t, S.pose.local_to_world p_l,
          (S.pose.dir_local_to_world ⟨1, 0⟩).normalized, S.id, ("sensor")⟩

/-- Outgoing ray of an escaped path, from `analysis.py` (`RayLine`). -/
structure RayLine where
  p0 : Vec2
  d : Vec2

/-- `np.mean` on a list (callers only use it on nonempty lists). -/
def listMean (xs : List ℝ) : ℝ := xs.sum / xs.length

/-- Symmetric 2x2 accumulator of `estimate_focus`: the normal matrix entries
and the right-hand vector. -/
structure EfAcc where
  a11 : ℝ
  a12 : ℝ
  a21 : ℝ
  a22 : ℝ
  bx : ℝ
  by' : ℝ

/-- One line's contribution in `estimate_focus`: the projector `I - u uᵀ`
(with `u = d / (‖d‖ + 1e-15)`) added into the normal matrix and its action on
`p0` added into the right-hand side. -/
def efStep (acc : EfAcc) (ln : RayLine) : EfAcc :=
  let nrm := Real.sqrt (ln.d.x ^ 2 + ln.d.y ^ 2) + 1e-15
  let ux := ln.d.x / nrm
  let uy := ln.d.y / nrm
  let p11 := 1 - ux * ux
  let p12 := -(ux * uy)
  let p22 := 1 - uy * uy
  ⟨acc.a11 + p11, acc.a12 + p12, acc.a21 + p12, acc.a22 + p22,
    acc.bx + (p11 * ln.p0.x + p12 * ln.p0.y),
    acc.by' + (p12 * ln.p0.x + p22 * ln.p0.y)⟩

/-- The accumulated `A`, `b` of `estimate_focus`. -/
def efNormal (lines : List RayLine) : EfAcc :=
  lines.foldl efStep ⟨0, 0, 0, 0, 0, 0⟩

/-- Perpendicular distance of the candidate focus to one line, as computed in
the RMS loop of `estimate_focus`. -/
def efPerpDist (focus : Vec2) (ln : RayLine) : ℝ :=
  let nrm := Real.sqrt (ln.d.x ^ 2 + ln.d.y ^ 2) + 1e-15
  let ux := ln.d.x / nrm
  let uy := ln.d.y / nrm
  let wx := focus.x - ln.p0.x
  let wy := focus.y - ln.p0.y
  let proj := wx * ux + wy * uy
  Real.sqrt ((wx - proj * ux) ^ 2 + (wy - proj * uy) ^ 2)

/-- `analysis.py` (`estimate_focus`): least-squares intersection of 2D lines.
`np.linalg.solve` on the nonsingular 2x2 system is its exact (Cramer)
solution in this real-number idealization. -/
def estimate_focus (lines : List RayLine) : Option (Vec2 × ℝ) :=
  if lines.length < 2 then none
  else
    let acc := efNormal lines
    let det := acc.a11 * acc.a22 - acc.a12 * acc.a21
    if |det| < 1e-12 then none
    else
      let focus : Vec2 := ⟨(acc.bx * acc.a22 - acc.by' * acc.a12) / det,
                           (acc.a11 * acc.by' - acc.a21 * acc.bx) / det⟩
      let ds := lines.map (efPerpDist focus)
      let spot_rms := if ds.isEmpty then 0
        else Real.sqrt (listMean (ds.map (fun v => v ^ 2)))
      some (focus, spot_rms)

/-- `analysis.py` (`_ys_at_x`): y-intercepts of the lines with the vertical
line `x = detector_x`, skipping near-parallel lines and intersections behind
the origin. -/
def ysAtX (lines : List RayLine) (detector_x : ℝ) : List ℝ :=
  lines.foldr (fun ln acc =>
    if |ln.d.x| < 1e-12 then acc
    else
      let t := (detector_x - ln.p0.x) / ln.d.x
      if t ≤ 0 then acc else (ln.p0.y + t * ln.d.y) :: acc) []

/-- Insertion into a sorted list (ascending), for the percentile model. -/
def insertSorted (x : ℝ) : List ℝ → List ℝ
  | [] => [x]
  | y :: r => if x ≤ y then x :: y :: r else y :: insertSorted x r

/-- Ascending sort of a list of reals. -/
def sortReal (xs : List ℝ) : List ℝ := xs.foldr insertSorted []

/-- Model of `np.percentile` with the default linear interpolation, on an
already sorted sample: index `h = (n-1)·q/100`, linear between the two
neighbouring order statistics. -/
def percentileSorted (s : List ℝ) (q : ℝ) : ℝ :=
  let n := s.length
  let h := ((n : ℝ) - 1) * q / 100
  let i := (⌊h⌋).toNat
  let lo := s.getD i 0
  let hi := s.getD (min (i + 1) (n - 1)) 0
  lo + (h - (⌊h⌋ : ℝ)) * (hi - lo)

/-- First index of the maximum of a list of counts (`np.argmax`). -/
def argmaxIdx (xs : List ℕ) : ℕ :=
  (xs.foldl (fun acc v =>
    if acc.2.2 < v then (acc.1 + 1, acc.1 + 1, v) else (acc.1 + 1, acc.2.1, acc.2.2))
    ((0 : ℕ), (0 : ℕ), (0 : ℕ))).2.1

/-- Histogram profile record produced by `intensity_profile_at_x`. -/
structure Profile where
  detector_x : ℝ
  y_min : ℝ
  y_max : ℝ
  bins : ℕ
  counts : List ℕ
  edges : List ℝ
  peak_y : ℝ
  peak_count : ℕ
  samples : ℕ

/-- Model of `np.histogram` bin membership: equal-width bins on
`[lo, hi]`, half-open except the last bin which is closed. -/
def binCount (ys : List ℝ) (bins : ℕ) (lo hi : ℝ) (i : ℕ) : ℕ :=
  let left := lo + (hi - lo) * ((i : ℝ) / (bins : ℝ))
  let right := lo + (hi - lo) * (((i : ℝ) + 1) / (bins : ℝ))
  (ys.filter (fun y =>
    decide (left ≤ y) && (if i + 1 = bins then decide (y ≤ hi) else decide (y < right)))).length

/-- `analysis.py` (`intensity_profile_at_x`): histogram of the intercepts at a
fixed detector plane; requires at least 10 samples; range is the 5th-95th
percentile padded by 10% (at least `1e-6`). -/
def intensity_profile_at_x (lines : List RayLine) (detector_x : ℝ) (bins : ℕ) :
    Option Profile :=
  let ys := ysAtX lines detector_x
  if ys.length < 10 then none
  else
    let s := sortReal ys
    let y05 := percentileSorted s 5
    let y95 := percentileSorted s 95
    let pad := max 1e-6 (0.1 * (y95 - y05))
    let y_min := y05 - pad
    let y_max := y95 + pad
    let counts := (List.range bins).map (binCount ys bins y_min y_max)
    let edges := (List.range (bins + 1)).map
      (fun i => y_min + (y_max - y_min) * ((i : ℝ) / (bins : ℝ)))
    let peakIdx := argmaxIdx counts
    let peak_y := (edges.getD peakIdx 0 + edges.getD (peakIdx + 1) 0) / 2
    some ⟨detector_x, y_min, y_max, bins, counts, edges, peak_y,
      counts.getD peakIdx 0, ys.length⟩

/-- `analysis.py` (`best_focus_scan`): scan `steps` detector planes between
`x_min` and `x_max`, keep the plane minimizing the RMS spread of intercepts,
requiring at least `min_samples` intercepts per plane. -/
def best_focus_scan (lines : List RayLine) (x_min x_max : ℝ)
    (steps min_samples : ℕ) : Option (Vec2 × ℝ) :=
  if steps < 2 then none
  else
    (List.range steps).foldl (fun best i =>
      let x := x_min + (x_max - x_min) * ((i : ℝ) / ((steps : ℝ) - 1))
      let ys := ysAtX lines x
      if ys.length < min_samples then best
      else
        let m := listMean ys
        let rms := Real.sqrt (listMean (ys.map (fun y => (y - m) ^ 2)))
        match best with
        | none => some (⟨x, m⟩, rms)
        | some b => if rms < b.2 then some (⟨x, m⟩, rms) else best) none

/-- Source description (`schema.py` `SourceModel`), as consumed by
`simulate_scene`. -/
structure SourceModel where
  id : String
  type : String
  pos : Vec2
  power : ℝ
  ray_count : ℤ
  theta : ℝ
  width : ℝ

/-- Lens description (`schema.py` `FresnelLensModel`). -/
structure LensModel where
  id : String
  type : String
  pos : Vec2
  theta : ℝ
  f : ℝ
  aperture : ℝ
  n1 : ℝ
  n2 : ℝ

/-- Mirror description (`schema.py` `ConicMirrorModel`). -/
structure MirrorModel where
  id : String
  type : String
  pos : Vec2
  theta : ℝ
  R : ℝ
  kappa : ℝ
  aperture : ℝ

/-- Sensor description. Modelled from the spec: section 6 lists
`sensors: list, each {id, pos, theta, length > 0}` among the recognized scene
fields and `simulate_scene` reads exactly these four attributes, but
`schema.py` declares no sensor model at all (see the claim C1 theorem). -/
structure SensorModel where
  id : String
  pos : Vec2
  theta : ℝ
  length : ℝ

/-- Simulation settings (`schema.py` `SettingsModel`). -/
structure SettingsModel where
  max_bounces : ℕ
  max_distance : ℝ
  angular_jitter : ℝ
  seed : Option ℤ

/-- The scene as consumed by the core `simulate_scene` : the five attributes
it reads. `schema.py`'s pydantic `Scene` omits the `sensors` field (the C1
code bug); here the core's expected input per spec section 6 is modelled. -/
structure Scene where
  sources : List SourceModel
  lenses : List LensModel
  mirrors : List MirrorModel
  sensors : List SensorModel
  settings : SettingsModel

/-- The field names declared on the pydantic `Scene` model in `schema.py`. -/
def schemaSceneFields : List String := ["sources", "lenses", "mirrors", "settings"]

/-- The `scene.<field>` attributes read by `simulate_scene` in `simulate.py`. -/
def simulateSceneFieldReads : List String :=
  ["lenses", "mirrors", "sensors", "settings", "sources"]

/-- Model of a `numpy` random generator: a stream of canonical draws in
`[0, 1)` plus a cursor. The stream is determined at seeding time. -/
structure Rng where
  stream : ℕ → ℝ
  idx : ℕ

/-- Model of `Generator.uniform(lo, hi)`: the next canonical draw `u`
mapped affinely to `lo + (hi - lo)·u`, advancing the cursor. -/
def Rng.uniform (r : Rng) (lo hi : ℝ) : ℝ × Rng :=
  (lo + (hi - lo) * r.stream r.idx, ⟨r.stream, r.idx + 1⟩)

/-- The two lens variants instantiated by `simulate_scene`. -/
inductive LensE where
  | thin : FresnelThinLens → LensE
  | facet : FresnelFacetLens → LensE

/-- Duck-typed `intersect` dispatch over the lens variants. -/
def LensE.intersect : LensE → Vec2 → Vec2 → Option Hit
  | .thin l, ro, rd => l.intersect ro rd
  | .facet l, ro, rd => l.intersect ro rd

/-- Duck-typed `transmit` dispatch over the lens variants. -/
def LensE.transmit : LensE → Vec2 → Vec2 → Vec2
  | .thin l, p, d => l.transmit p d
  | .facet l, p, d => l.transmit p d

/-- Element instantiation of `simulate_scene` for a lens model. -/
def mkLens (l : LensModel) : LensE :=
  if l.type = "fresnel_facet" then
    .facet ⟨l.id, ⟨l.pos, l.theta⟩, l.f, l.aperture, l.n1, l.n2⟩
  else
    .thin ⟨l.id, ⟨l.pos, l.theta⟩, l.f, l.aperture⟩

/-- Element instantiation of `simulate_scene` for a mirror model. -/
def mkMirror (m : MirrorModel) : ConicMirror :=
  ⟨m.id, ⟨m.pos, m.theta⟩, m.R, m.kappa, m.aperture⟩

/-- Element instantiation of `simulate_scene` for a sensor model. -/
def mkSensor (s : SensorModel) : Sensor :=
  ⟨s.id, ⟨s.pos, s.theta⟩, s.length⟩

/-- The `sensor_hits` dictionary: increment the entry of `k` when present
(`if h.element_id in sensor_hits: sensor_hits[h.element_id] += 1`). -/
def bumpHits (m : List (String × ℕ)) (k : String) : List (String × ℕ) :=
  if (m.map Prod.fst).contains k then
    m.map (fun kv => if kv.1 = k then (kv.1, kv.2 + 1) else kv)
  else m

/-- The nearest-hit candidate of the trace loop, tagged with its kind. -/
inductive Picked where
  | lens : LensE → Hit → Picked
  | mirror : ConicMirror → Hit → Picked
  | sensor : Sensor → Hit → Picked

/-- The hit carried by a candidate. -/
def Picked.hit : Picked → Hit
  | .lens _ h => h
  | .mirror _ h => h
  | .sensor _ h => h

/-- The lens scan of one `_trace_one` step: keep the strictly smaller `t`. -/
def scanLenses (o d : Vec2) (acc : Option Picked) (lenses : List LensE) :
    Option Picked :=
  lenses.foldl (fun acc ln =>
    match ln.intersect o d with
    | none => acc
    | some h =>
        match acc with
        | none => some (.lens ln h)
        | some p => if h.t < p.hit.t then some (.lens ln h) else acc) acc

/-- The mirror scan of one `_trace_one` step. -/
def scanMirrors (o d : Vec2) (acc : Option Picked) (mirrors : List ConicMirror) :
    Option Picked :=
  mirrors.foldl (fun acc mr =>
    match mr.intersect o d with
    | none => acc
    | some h =>
        match acc with
        | none => some (.mirror mr h)
        | some p => if h.t < p.hit.t then some (.mirror mr h) else acc) acc

/-- The sensor scan of one `_trace_one` step: every sensor hit increments the
tally immediately, and also competes for the nearest hit. -/
def scanSensors (o d : Vec2) (acc : Option Picked × List (String × ℕ))
    (sensors : List Sensor) : Option Picked × List (String × ℕ) :=
  sensors.foldl (fun acc sn =>
    match sn.intersect o d with
    | none => acc
    | some h =>
        let m := bumpHits acc.2 h.element_id
        match acc.1 with
        | none => (some (.sensor sn h), m)
        | some p => if h.t < p.hit.t then (some (.sensor sn h), m) else (acc.1, m)) acc

/-- The `for _ in range(max_bounces + 1)` loop of `_trace_one`, with the
remaining iteration count as fuel. When nothing is hit the path is closed by
the synthetic far point `o + d·max_dist`; otherwise the hit point is appended,
the interaction law applied, and the origin nudged `1e-6` along the new
direction. -/
def traceLoop (lenses : List LensE) (mirrors : List ConicMirror)
    (sensors : List Sensor) (maxDist : ℝ) :
    ℕ → List Vec2 → Vec2 → Vec2 → List (String × ℕ) →
      List Vec2 × List (String × ℕ)
  | 0, pts, _, _, hits => (pts, hits)
  | fuel + 1, pts, o, d, hits =>
    let scan := scanSensors o d (scanMirrors o d (scanLenses o d none lenses) mirrors, hits)
      sensors
    match scan.1 with
    | none => (pts ++ [o + d.smul maxDist], scan.2)
    | some pk =>
        let h := pk.hit
        let d2 :=
          match pk with
          | .lens l _ => l.transmit h.p_world d
          | .mirror m _ => m.reflect d h.n_world
          | .sensor _ _ => d
        traceLoop lenses mirrors sensors maxDist fuel (pts ++ [h.p_world])
          (h.p_world + d2.smul 1e-6) d2 scan.2

/-- `simulate.py` (`_trace_one`): the path starts at the ray origin with the
defensively normalized direction. -/
def traceOne (ro rd : Vec2) (lenses : List LensE) (mirrors : List ConicMirror)
    (sensors : List Sensor) (hits : List (String × ℕ)) (maxBounces : ℕ)
    (maxDist : ℝ) : List Vec2 × List (String × ℕ) :=
  traceLoop lenses mirrors sensors maxDist (maxBounces + 1) [ro] ro rd.normalized hits

/-- The mutable accumulators of the emission loop of `simulate_scene`. -/
structure EmState where
  rng : Rng
  raysOut : List (List Vec2)
  outLines : List RayLine
  hits : List (String × ℕ)
  totalRays : ℕ

/-- `ang += rng.uniform(-j, j)` guarded by `angular_jitter > 0` (the
generator advances only when jitter is positive). -/
def jitterAngle (j : ℝ) (rng : Rng) (base : ℝ) : ℝ × Rng :=
  if 0 < j then
    let u := rng.uniform (-j) j
    (base + u.1, u.2)
  else (base, rng)

/-- Trace one emitted ray and fold its results into the accumulators: the
path is always appended to `rays_out`; when it has at least two points and a
non-degenerate final segment, that segment is recorded as an outgoing
ray-line. -/
def emitTraceStep (lE : List LensE) (mE : List ConicMirror) (sE : List Sensor)
    (settings : SettingsModel) (st : EmState) (rng' : Rng) (origin rd : Vec2) :
    EmState :=
  let tr := traceOne origin rd lE mE sE st.hits settings.max_bounces
    settings.max_distance
  let poly := tr.1
  let outLines' :=
    if 2 ≤ poly.length then
      let p0 := poly.getD (poly.length - 2) ⟨0, 0⟩
      let p1 := poly.getD (poly.length - 1) ⟨0, 0⟩
      let dg := (p1 - p0).normalized
      if 0 < dg.norm then st.outLines ++ [⟨p0, dg⟩] else st.outLines
    else st.outLines
  ⟨rng', st.raysOut ++ [poly], outLines', tr.2, st.totalRays⟩

/-- Body of the collimated-source emission loop: origins offset across the
beam width (`-w/2 + w·i/denom` along the perpendicular), direction at the
(possibly jittered) base angle. -/
def collimatedStep (lE : List LensE) (mE : List ConicMirror) (sE : List Sensor)
    (settings : SettingsModel) (pos u : Vec2) (w base : ℝ) (denom : ℕ)
    (st : EmState) (i : ℕ) : EmState :=
  let off := -(1 / 2) * w + w * ((i : ℝ) / (denom : ℝ))
  let origin := pos + u.smul off
  let a := jitterAngle settings.angular_jitter st.rng base
  let rd := (Vec2.mk (Real.cos a.1) (Real.sin a.1)).normalized
  emitTraceStep lE mE sE settings st a.2 origin rd

/-- The emitted ray of a point source: angle `2π·i/n`, optionally jittered. -/
def emitPointRay (pos : Vec2) (n : ℕ) (j : ℝ) (rng : Rng) (i : ℕ) :
    (Vec2 × Vec2) × Rng :=
  let a := jitterAngle j rng (2 * Real.pi * ((i : ℝ) / (n : ℝ)))
  ((pos, (Vec2.mk (Real.cos a.1) (Real.sin a.1)).normalized), a.2)

/-- Body of the point-source emission loop. -/
def pointStep (lE : List LensE) (mE : List ConicMirror) (sE : List Sensor)
    (settings : SettingsModel) (pos : Vec2) (n : ℕ) (st : EmState) (i : ℕ) :
    EmState :=
  let e := emitPointRay pos n settings.angular_jitter st.rng i
  emitTraceStep lE mE sE settings st e.2 e.1.1 e.1.2

/-- Per-source block of the emission loop of `simulate_scene`: skip
non-positive ray counts, add the count to `total_rays`, then run the
per-ray loop of the source's kind. -/
def processSource (lE : List LensE) (mE : List ConicMirror) (sE : List Sensor)
    (settings : SettingsModel) (st : EmState) (s : SourceModel) : EmState :=
  if s.ray_count ≤ 0 then st
  else
    let n : ℕ := s.ray_count.toNat
    let st1 : EmState := { st with totalRays := st.totalRays + n }
    if s.type = "collimated" then
      let d0 := (Vec2.mk (Real.cos s.theta) (Real.sin s.theta)).normalized
      let u := d0.perp.normalized
      let denom : ℕ := max 1 (n - 1)
      (List.range n).foldl
        (collimatedStep lE mE sE settings s.pos u s.width s.theta denom) st1
    else
      (List.range n).foldl (pointStep lE mE sE settings s.pos n) st1

/-- Per-sensor statistics block of the result. -/
structure SensorStat where
  ray_count : ℕ
  percentage : ℝ

/-- Model of Python's `round(x, 2)`: the nearest hundredth. (Python rounds
half-to-even; `round` here rounds half up — they agree except at exact
half-ties, which no theorem below touches.) -/
def pyRound2 (x : ℝ) : ℝ := ((round (x * 100) : ℤ) : ℝ) / 100

/-- The `analysis` block of the result of `simulate_scene`. -/
structure Analysis where
  focus : Option Vec2
  spot_rms : Option ℝ
  ray_count : ℕ
  profile : Option Profile
  sensors : Option (List (String × SensorStat))

/-- The full result of `simulate_scene`. -/
structure SimResult where
  rays : List (List Vec2)
  analysis : Analysis

/-- The initial emission state: empty outputs, the `sensor_hits` dictionary
zero-initialized over the sensor ids. -/
def emInit (sE : List Sensor) (stream : ℕ → ℝ) : EmState :=
  ⟨⟨stream, 0⟩, [], [], ((sE.map Sensor.id).dedup).map (fun k => (k, 0)), 0⟩

/-- The emission loop of `simulate_scene` over all sources. -/
def emissionFinal (stream : ℕ → ℝ) (scene : Scene) : EmState :=
  scene.sources.foldl
    (processSource (scene.lenses.map mkLens) (scene.mirrors.map mkMirror)
      (scene.sensors.map mkSensor) scene.settings)
    (emInit (scene.sensors.map mkSensor) stream)

/-- `simulate_scene` with the seeded canonical draw stream supplied
explicitly: element instantiation, per-source emission and tracing, focus
scan (falling back to the least-squares estimate), intensity profile, and
sensor percentages. -/
def simulateSceneWith (stream : ℕ → ℝ) (scene : Scene) : SimResult :=
  let sE := scene.sensors.map mkSensor
  let fin := emissionFinal stream scene
  let maxDist := scene.settings.max_distance
  let focus0 : Option (Vec2 × ℝ) :=
    if fin.outLines.isEmpty then none
    else
      let dxMean := listMean (fin.outLines.map (fun ln => ln.d.x))
      if 0 ≤ dxMean then
        let xMin := match fin.outLines.map (fun ln => ln.p0.x) with
          | [] => 0
          | v :: r => r.foldl min v
        best_focus_scan fin.outLines xMin (xMin + maxDist) 240 30
      else
        let xMax := match fin.outLines.map (fun ln => ln.p0.x) with
          | [] => 0
          | v :: r => r.foldl max v
        best_focus_scan fin.outLines (xMax - maxDist) xMax 240 30
  let focus :=
    match focus0 with
    | some f => some f
    | none => estimate_focus fin.outLines
  let analysis0 : Analysis :=
    match focus with
    | none => ⟨none, none, fin.outLines.length, none, none⟩
    | some fr => ⟨some fr.1, some fr.2, fin.outLines.length,
        intensity_profile_at_x fin.outLines fr.1.x 200, none⟩
  let analysis :=
    if sE.isEmpty then analysis0
    else
      let sa := fin.hits.map (fun kv =>
        (kv.1, SensorStat.mk kv.2
          (pyRound2 (if 0 < fin.totalRays then
            (kv.2 : ℝ) / (fin.totalRays : ℝ) * 100 else 0))))
      { analysis0 with sensors := some sa }
  ⟨fin.raysOut, analysis⟩

/-- The canonical draw stream selected by `np.random.default_rng(seed)`: the
deterministic stream of the PRNG algorithm for an integer seed, the
OS-entropy stream when the seed is `None`. -/
def seedStream (npRandom : ℤ → ℕ → ℝ) (entropy : ℕ → ℝ) (seed : Option ℤ) :
    ℕ → ℝ :=
  match seed with
  | some s => npRandom s
  | none => entropy

/-- `simulate_scene`, seeding the generator from the scene settings as
`np.random.default_rng(scene.settings.seed)` does: `npRandom` is the
deterministic seed-to-stream family of the PRNG algorithm, `entropy` the
OS-entropy stream used when the seed is `None`. -/
def simulateScene (npRandom : ℤ → ℕ → ℝ) (entropy : ℕ → ℝ) (scene : Scene) :
    SimResult :=
  simulateSceneWith (seedStream npRandom entropy scene.settings.seed) scene

/-- Concrete mirror used in the sensor-percentage counterexample: a parabola
(`κ = -1`, `R = 1`) at `(2, 0)` with a small aperture, so only the axis ray
reflects. -/
def mirCE : ConicMirror := ⟨"m", ⟨⟨2, 0⟩, 0⟩, 1, -1, 1 / 100⟩

/-- Concrete sensor used in the sensor-percentage counterexample. -/
def senCE : Sensor := ⟨"det", ⟨⟨1, 0⟩, 0⟩, 1⟩

/-- Settings of the sensor-percentage counterexample: 3 bounces, no jitter. -/
def settingsCE : SettingsModel := ⟨3, 5, 0, some 1⟩

/-- The sensor-percentage counterexample scene: an 11-ray collimated source
shooting +x through a sensor at `x = 1` into the mirror at `x = 2`; the axis
ray reflects straight back and crosses the sensor a second time. -/
def sceneCE : Scene :=
  ⟨[⟨"s", "collimated", ⟨0, 0⟩, 1, 11, 0, 1 / 2⟩], [],
   [⟨"m", "conic", ⟨2, 0⟩, 0, 1, -1, 1 / 100⟩], [⟨"det", ⟨1, 0⟩, 0, 1⟩],
   settingsCE⟩

@[ext] theorem Vec2.ext (a b : Vec2) (hx : a.x = b.x) (hy : a.y = b.y) : a = b := by
  cases a; cases b; cases hx; cases hy; rfl

theorem Vec2.add_def (a b : Vec2) : a + b = ⟨a.x + b.x, a.y + b.y⟩ := rfl

theorem Vec2.sub_def (a b : Vec2) : a - b = ⟨a.x - b.x, a.y - b.y⟩ := rfl

theorem Vec2.norm_eq_one_iff (v : Vec2) : v.norm = 1 ↔ v.x ^ 2 + v.y ^ 2 = 1 :=
  Real.sqrt_eq_one

theorem Vec2.normalized_of_norm_one (v : Vec2) (h : v.norm = 1) :
    v.normalized = v := by
  rw [Vec2.normalized, h]
  norm_num

theorem rotate_zero (v : Vec2) : rotate v 0 = v := by
  simp [rotate]

theorem rotate_neg_zero (v : Vec2) : rotate v (-0) = v := by
  rw [neg_zero, rotate_zero]

theorem norm_east : (Vec2.mk 1 0).norm = 1 := by
  rw [Vec2.norm]; norm_num

theorem norm_west : (Vec2.mk (-1) 0).norm = 1 := by
  rw [Vec2.norm]; norm_num

theorem norm_north : (Vec2.mk 0 1).norm = 1 := by
  rw [Vec2.norm]; norm_num

theorem normalized_east : (Vec2.mk 1 0).normalized = ⟨1, 0⟩ :=
  Vec2.normalized_of_norm_one _ norm_east

theorem normalized_west : (Vec2.mk (-1) 0).normalized = ⟨-1, 0⟩ :=
  Vec2.normalized_of_norm_one _ norm_west

theorem normalized_north : (Vec2.mk 0 1).normalized = ⟨0, 1⟩ :=
  Vec2.normalized_of_norm_one _ norm_north

/-- C1: the claim says that for every `Scene` satisfying the input
constraints of spec section 6, `simulate_scene` completes without raising an
error. The code contradicts this (and its own test suite): `simulate_scene`
reads `scene.sensors`, an attribute the pydantic `Scene` of `schema.py` never
declares, so every call raises `AttributeError` before any ray is traced. -/
theorem C1_simulate_reads_undeclared_scene_field :
    "sensors" ∈ simulateSceneFieldReads ∧ "sensors" ∉ schemaSceneFields := by
  decide

/-- C8: with an integer seed in the settings, the simulation output is a
function of the scene alone — it does not depend on the ambient entropy
source, so re-running the same scene reproduces the identical ray polylines
and analysis block. -/
theorem C8_seeded_determinism (npRandom : ℤ → ℕ → ℝ) (e1 e2 : ℕ → ℝ)
    (scene : Scene) (s : ℤ) (h : scene.settings.seed = some s) :
    simulateScene npRandom e1 scene = simulateScene npRandom e2 scene := by
  simp only [simulateScene, seedStream, h]

/-- C8 witness: a concrete seeded scene simulated under two different ambient
entropy streams. -/
theorem C8_seeded_determinism_witness :
    simulateScene (fun _ _ => 0) (fun _ => 1) ⟨[], [], [], [], ⟨0, 1, 0, some 0⟩⟩ =
    simulateScene (fun _ _ => 0) (fun _ => 2) ⟨[], [], [], [], ⟨0, 1, 0, some 0⟩⟩ :=
  C8_seeded_determinism (fun _ _ => 0) (fun _ => 1) (fun _ => 2) _ 0 rfl

/-- C4: for unit `d`, unit `n` (pointing from medium 1 into medium 2) and
positive indices, with `η = n1/n2`, `cosθ1 = -n·d` and
`k = 1 - η²(1 - cosθ1²)`, `refract_dir` returns no result exactly when
`k < 0` and otherwise the renormalization of `η·d + (η·cosθ1 - √k)·n`. -/
theorem C4_refract_snell (d n : Vec2) (n1 n2 : ℝ) (hd : d.norm = 1)
    (hn : n.norm = 1) (h1 : 0 < n1) (h2 : 0 < n2) :
    (1 - (n1 / n2) ^ 2 * (1 - (-(n.dot d)) ^ 2) < 0 →
      refract_dir d n n1 n2 = none) ∧
    (0 ≤ 1 - (n1 / n2) ^ 2 * (1 - (-(n.dot d)) ^ 2) →
      refract_dir d n n1 n2 =
        some ((d.smul (n1 / n2) + n.smul ((n1 / n2) * (-(n.dot d)) -
          Real.sqrt (1 - (n1 / n2) ^ 2 * (1 - (-(n.dot d)) ^ 2)))).normalized)) := by
  have hdn := Vec2.normalized_of_norm_one d hd
  have hnn := Vec2.normalized_of_norm_one n hn
  have hk : (1 : ℝ) - n1 / n2 * (n1 / n2) * (1 - -(n.dot d) * -(n.dot d)) =
      1 - (n1 / n2) ^ 2 * (1 - (-(n.dot d)) ^ 2) := by ring
  constructor
  · intro hlt
    rw [refract_dir]
    simp only [hdn, hnn]
    rw [hk, if_pos hlt]
  · intro hge
    rw [refract_dir]
    simp only [hdn, hnn]
    rw [hk, if_neg (not_lt.mpr hge), max_eq_right hge]

/-- C4 witness: normal incidence from index 1 into index 2. -/
theorem C4_refract_snell_witness :
    (1 - ((1 : ℝ) / 2) ^ 2 * (1 - (-(Vec2.dot ⟨-1, 0⟩ ⟨1, 0⟩)) ^ 2) < 0 →
      refract_dir ⟨1, 0⟩ ⟨-1, 0⟩ 1 2 = none) ∧
    (0 ≤ 1 - ((1 : ℝ) / 2) ^ 2 * (1 - (-(Vec2.dot ⟨-1, 0⟩ ⟨1, 0⟩)) ^ 2) →
      refract_dir ⟨1, 0⟩ ⟨-1, 0⟩ 1 2 =
        some ((Vec2.smul ⟨1, 0⟩ ((1 : ℝ) / 2) +
          Vec2.smul ⟨-1, 0⟩ (((1 : ℝ) / 2) * (-(Vec2.dot ⟨-1, 0⟩ ⟨1, 0⟩)) -
            Real.sqrt (1 - ((1 : ℝ) / 2) ^ 2 *
              (1 - (-(Vec2.dot ⟨-1, 0⟩ ⟨1, 0⟩)) ^ 2)))).normalized)) :=
  C4_refract_snell ⟨1, 0⟩ ⟨-1, 0⟩ 1 2 norm_east norm_west one_pos two_pos

/-- C7: on unit incident direction and unit normal, the mirror's specular
reflection is unit length, its normal component is the negated incident
normal component (angle in = angle out), and the tangential component of the
incident direction is preserved. -/
theorem C7_reflect_specular (M : ConicMirror) (d n : Vec2) (hd : d.norm = 1)
    (hn : n.norm = 1) :
    (M.reflect d n).norm = 1 ∧
    (M.reflect d n).dot n = -(d.dot n) ∧
    M.reflect d n - n.smul ((M.reflect d n).dot n) = d - n.smul (d.dot n) := by
  have hd2 : d.x ^ 2 + d.y ^ 2 = 1 := (Vec2.norm_eq_one_iff d).mp hd
  have hn2 : n.x ^ 2 + n.y ^ 2 = 1 := (Vec2.norm_eq_one_iff n).mp hn
  have hr2 : (d.x - n.x * (2 * (d.x * n.x + d.y * n.y))) ^ 2 +
      (d.y - n.y * (2 * (d.x * n.x + d.y * n.y))) ^ 2 = 1 := by
    linear_combination hd2 + (2 * (d.x * n.x + d.y * n.y)) ^ 2 * hn2
  have hrefl : M.reflect d n = ⟨d.x - n.x * (2 * (d.x * n.x + d.y * n.y)),
      d.y - n.y * (2 * (d.x * n.x + d.y * n.y))⟩ := by
    rw [ConicMirror.reflect]
    simp only [Vec2.normalized_of_norm_one d hd, Vec2.normalized_of_norm_one n hn]
    rw [show d - n.smul (2 * d.dot n) = (⟨d.x - n.x * (2 * (d.x * n.x + d.y * n.y)),
      d.y - n.y * (2 * (d.x * n.x + d.y * n.y))⟩ : Vec2) from rfl]
    exact Vec2.normalized_of_norm_one _ ((Vec2.norm_eq_one_iff _).mpr hr2)
  refine ⟨?_, ?_, ?_⟩
  · rw [hrefl, Vec2.norm_eq_one_iff]
    exact hr2
  · rw [hrefl]
    show (d.x - n.x * (2 * (d.x * n.x + d.y * n.y))) * n.x +
      (d.y - n.y * (2 * (d.x * n.x + d.y * n.y))) * n.y = -(d.x * n.x + d.y * n.y)
    linear_combination (-2 * (d.x * n.x + d.y * n.y)) * hn2
  · rw [hrefl]
    have hdot : (Vec2.mk (d.x - n.x * (2 * (d.x * n.x + d.y * n.y)))
        (d.y - n.y * (2 * (d.x * n.x + d.y * n.y)))).dot n = -(d.x * n.x + d.y * n.y) := by
      show (d.x - n.x * (2 * (d.x * n.x + d.y * n.y))) * n.x +
        (d.y - n.y * (2 * (d.x * n.x + d.y * n.y))) * n.y = -(d.x * n.x + d.y * n.y)
      linear_combination (-2 * (d.x * n.x + d.y * n.y)) * hn2
    rw [hdot]
    ext
    · show d.x - n.x * (2 * (d.x * n.x + d.y * n.y)) - n.x * -(d.x * n.x + d.y * n.y) =
        d.x - n.x * (d.x * n.x + d.y * n.y)
      ring
    · show d.y - n.y * (2 * (d.x * n.x + d.y * n.y)) - n.y * -(d.x * n.x + d.y * n.y) =
        d.y - n.y * (d.x * n.x + d.y * n.y)
      ring

/-- C7 witness: grazing reflection of the +x direction about the +y normal. -/
theorem C7_reflect_specular_witness :
    ((ConicMirror.mk "m" ⟨⟨0, 0⟩, 0⟩ 1 (-1) 1).reflect ⟨1, 0⟩ ⟨0, 1⟩).norm = 1 ∧
    ((ConicMirror.mk "m" ⟨⟨0, 0⟩, 0⟩ 1 (-1) 1).reflect ⟨1, 0⟩ ⟨0, 1⟩).dot ⟨0, 1⟩ =
      -(Vec2.dot ⟨1, 0⟩ ⟨0, 1⟩) ∧
    (ConicMirror.mk "m" ⟨⟨0, 0⟩, 0⟩ 1 (-1) 1).reflect ⟨1, 0⟩ ⟨0, 1⟩ -
        Vec2.smul ⟨0, 1⟩ (((ConicMirror.mk "m" ⟨⟨0, 0⟩, 0⟩ 1 (-1) 1).reflect
          ⟨1, 0⟩ ⟨0, 1⟩).dot ⟨0, 1⟩) =
      (⟨1, 0⟩ : Vec2) - Vec2.smul ⟨0, 1⟩ (Vec2.dot ⟨1, 0⟩ ⟨0, 1⟩) :=
  C7_reflect_specular (ConicMirror.mk "m" ⟨⟨0, 0⟩, 0⟩ 1 (-1) 1) ⟨1, 0⟩ ⟨0, 1⟩
    norm_east norm_north

/-- C9: a point source's `i`-th ray has pre-jitter angle `2π·i/n`; with
positive jitter `j` the angle is perturbed by one fresh draw from the seeded
generator, lying in `[-j, j]` (the canonical draws being in `[0, 1)`), and
the cursor advances by one; with zero jitter the generator is untouched. -/
theorem C9_point_source_emission (pos : Vec2) (n : ℕ) (j : ℝ) (rng : Rng)
    (i : ℕ) (hn : 0 < n) (hi : i < n)
    (hs : ∀ k, 0 ≤ rng.stream k ∧ rng.stream k < 1) :
    (j ≤ 0 → emitPointRay pos n j rng i =
      ((pos, (Vec2.mk (Real.cos (2 * Real.pi * ((i : ℝ) / (n : ℝ))))
        (Real.sin (2 * Real.pi * ((i : ℝ) / (n : ℝ))))).normalized), rng)) ∧
    (0 < j → ∃ δ : ℝ, |δ| ≤ j ∧ emitPointRay pos n j rng i =
      ((pos, (Vec2.mk (Real.cos (2 * Real.pi * ((i : ℝ) / (n : ℝ)) + δ))
        (Real.sin (2 * Real.pi * ((i : ℝ) / (n : ℝ)) + δ))).normalized),
        ⟨rng.stream, rng.idx + 1⟩)) := by
  constructor
  · intro hj
    rw [emitPointRay, jitterAngle, if_neg (not_lt.mpr hj)]
  · intro hj
    refine ⟨-j + (j - -j) * rng.stream rng.idx, ?_, ?_⟩
    · obtain ⟨h0, h1⟩ := hs rng.idx
      rw [abs_le]
      constructor <;> nlinarith
    · rw [emitPointRay, jitterAngle, if_pos hj, Rng.uniform]

/-- C9 witness: ray 1 of 4 with jitter `1/10` from the all-zeros stream. -/
theorem C9_point_source_emission_witness :
    ((1 : ℝ) / 10 ≤ 0 → emitPointRay ⟨0, 0⟩ 4 (1 / 10) ⟨fun _ => 0, 0⟩ 1 =
      ((⟨0, 0⟩, (Vec2.mk (Real.cos (2 * Real.pi * (((1 : ℕ) : ℝ) / ((4 : ℕ) : ℝ))))
        (Real.sin (2 * Real.pi * (((1 : ℕ) : ℝ) / ((4 : ℕ) : ℝ))))).normalized),
        ⟨fun _ => 0, 0⟩)) ∧
    (0 < (1 : ℝ) / 10 → ∃ δ : ℝ, |δ| ≤ 1 / 10 ∧
      emitPointRay ⟨0, 0⟩ 4 (1 / 10) ⟨fun _ => 0, 0⟩ 1 =
      ((⟨0, 0⟩, (Vec2.mk (Real.cos (2 * Real.pi * (((1 : ℕ) : ℝ) / ((4 : ℕ) : ℝ)) + δ))
        (Real.sin (2 * Real.pi * (((1 : ℕ) : ℝ) / ((4 : ℕ) : ℝ)) + δ))).normalized),
        ⟨(⟨fun _ => 0, 0⟩ : Rng).stream, (⟨fun _ => 0, 0⟩ : Rng).idx + 1⟩)) :=
  C9_point_source_emission ⟨0, 0⟩ 4 (1 / 10) ⟨fun _ => 0, 0⟩ 1 (by norm_num)
    (by norm_num) (by intro k; norm_num)

theorem scanLenses_all_none (o d : Vec2) (lE : List LensE)
    (h : ∀ l ∈ lE, l.intersect o d = none) :
    ∀ acc, scanLenses o d acc lE = acc := by
  induction lE with
  | nil => intro acc; rfl
  | cons x xs ih =>
      intro acc
      simp only [scanLenses, List.foldl_cons]
      rw [h x (List.mem_cons_self x xs)]
      exact ih (fun l hl => h l (List.mem_cons_of_mem x hl)) acc

theorem scanMirrors_all_none (o d : Vec2) (mE : List ConicMirror)
    (h : ∀ mr ∈ mE, mr.intersect o d = none) :
    ∀ acc, scanMirrors o d acc mE = acc := by
  induction mE with
  | nil => intro acc; rfl
  | cons x xs ih =>
      intro acc
      simp only [scanMirrors, List.foldl_cons]
      rw [h x (List.mem_cons_self x xs)]
      exact ih (fun mr hmr => h mr (List.mem_cons_of_mem x hmr)) acc

theorem scanSensors_all_none (o d : Vec2) (sE : List Sensor)
    (h : ∀ sn ∈ sE, sn.intersect o d = none) :
    ∀ acc, scanSensors o d acc sE = acc := by
  induction sE with
  | nil => intro acc; rfl
  | cons x xs ih =>
      intro acc
      simp only [scanSensors, List.foldl_cons]
      rw [h x (List.mem_cons_self x xs)]
      exact ih (fun sn hsn => h sn (List.mem_cons_of_mem x hsn)) acc

theorem traceLoop_length_le (lE : List LensE) (mE : List ConicMirror)
    (sE : List Sensor) (md : ℝ) :
    ∀ (fuel : ℕ) (pts : List Vec2) (o d : Vec2) (m : List (String × ℕ)),
      (traceLoop lE mE sE md fuel pts o d m).1.length ≤ pts.length + fuel := by
  intro fuel
  induction fuel with
  | zero =>
      intro pts o d m
      rw [traceLoop]
      simp
  | succ k ih =>
      intro pts o d m
      rw [traceLoop]
      rcases hscan : (scanSensors o d
          (scanMirrors o d (scanLenses o d none lE) mE, m) sE).1 with _ | pk
      · simp only [hscan, List.length_append, List.length_cons, List.length_nil]
        omega
      · simp only [hscan]
        refine le_trans (ih _ _ _ _) ?_
        simp only [List.length_append, List.length_cons, List.length_nil]
        omega

theorem traceLoop_length_ge (lE : List LensE) (mE : List ConicMirror)
    (sE : List Sensor) (md : ℝ) :
    ∀ (fuel : ℕ) (pts : List Vec2) (o d : Vec2) (m : List (String × ℕ)),
      pts.length ≤ (traceLoop lE mE sE md fuel pts o d m).1.length := by
  intro fuel
  induction fuel with
  | zero =>
      intro pts o d m
      rw [traceLoop]
  | succ k ih =>
      intro pts o d m
      rw [traceLoop]
      rcases hscan : (scanSensors o d
          (scanMirrors o d (scanLenses o d none lE) mE, m) sE).1 with _ | pk
      · simp only [hscan, List.length_append, List.length_cons, List.length_nil]
        omega
      · simp only [hscan]
        refine le_trans ?_ (ih _ _ _ _)
        simp only [List.length_append, List.length_cons, List.length_nil]
        omega

/-- C6: the trace loop runs at most `max_bounces + 1` steps so the polyline
has at most `max_bounces + 2` points; a step that hits no element terminates
the path with the origin extended by `max_distance` along the direction (and
takes no further step); an exhausted bounce budget ends the path at the last
point with no forced extension. -/
theorem C6_trace_loop_termination :
    (∀ (ro rd : Vec2) (lE : List LensE) (mE : List ConicMirror)
       (sE : List Sensor) (m : List (String × ℕ)) (mb : ℕ) (md : ℝ),
       (traceOne ro rd lE mE sE m mb md).1.length ≤ mb + 2) ∧
    (∀ (lE : List LensE) (mE : List ConicMirror) (sE : List Sensor) (md : ℝ)
       (fuel : ℕ) (pts : List Vec2) (o d : Vec2) (m : List (String × ℕ)),
       (∀ l ∈ lE, l.intersect o d = none) →
       (∀ mr ∈ mE, mr.intersect o d = none) →
       (∀ sn ∈ sE, sn.intersect o d = none) →
       traceLoop lE mE sE md (fuel + 1) pts o d m = (pts ++ [o + d.smul md], m)) ∧
    (∀ (lE : List LensE) (mE : List ConicMirror) (sE : List Sensor) (md : ℝ)
       (pts : List Vec2) (o d : Vec2) (m : List (String × ℕ)),
       traceLoop lE mE sE md 0 pts o d m = (pts, m)) := by
  refine ⟨?_, ?_, ?_⟩
  · intro ro rd lE mE sE m mb md
    refine le_trans (traceLoop_length_le lE mE sE md (mb + 1) [ro] ro rd.normalized m) ?_
    simp only [List.length_cons, List.length_nil]
    omega
  · intro lE mE sE md fuel pts o d m hl hm hs
    rw [traceLoop, scanLenses_all_none o d lE hl, scanMirrors_all_none o d mE hm,
      scanSensors_all_none o d sE hs]
  · intro lE mE sE md pts o d m
    rw [traceLoop]

/-- C6 witness: an empty element collection at concrete inputs. -/
theorem C6_trace_loop_termination_witness :
    (traceOne ⟨0, 0⟩ ⟨1, 0⟩ [] [] [] [] 0 1).1.length ≤ 0 + 2 ∧
    traceLoop [] [] [] 1 1 [⟨0, 0⟩] ⟨0, 0⟩ ⟨1, 0⟩ [] =
      ([⟨0, 0⟩] ++ [(⟨0, 0⟩ : Vec2) + Vec2.smul ⟨1, 0⟩ 1], []) ∧
    traceLoop [] [] [] 1 0 [⟨0, 0⟩] ⟨0, 0⟩ ⟨1, 0⟩ [] = ([⟨0, 0⟩], []) :=
  ⟨C6_trace_loop_termination.1 ⟨0, 0⟩ ⟨1, 0⟩ [] [] [] [] 0 1,
   C6_trace_loop_termination.2.1 [] [] [] 1 0 [⟨0, 0⟩] ⟨0, 0⟩ ⟨1, 0⟩ []
     (by intro l hl; cases hl) (by intro mr hmr; cases hmr)
     (by intro sn hsn; cases hsn),
   C6_trace_loop_termination.2.2 [] [] [] 1 [⟨0, 0⟩] ⟨0, 0⟩ ⟨1, 0⟩ []⟩

/-- C10: every polyline returned by `_trace_one` has at least two points: the
origin plus, at the first step, either the first hit point or the synthetic
far point. -/
theorem C10_polyline_at_least_two (ro rd : Vec2) (lE : List LensE)
    (mE : List ConicMirror) (sE : List Sensor) (m : List (String × ℕ))
    (mb : ℕ) (md : ℝ) : 2 ≤ (traceOne ro rd lE mE sE m mb md).1.length := by
  rw [traceOne, traceLoop]
  rcases hscan : (scanSensors ro rd.normalized
      (scanMirrors ro rd.normalized (scanLenses ro rd.normalized none lE) mE, m)
      sE).1 with _ | pk
  · simp only [hscan, List.length_append, List.length_cons, List.length_nil]
    omega
  · simp only [hscan]
    refine le_trans ?_ (traceLoop_length_ge lE mE sE md mb _ _ _ _)
    simp

theorem sqrt_four : Real.sqrt 4 = 2 := by
  rw [show (4 : ℝ) = 2 ^ 2 by norm_num, Real.sqrt_sq (by norm_num : (0 : ℝ) ≤ 2)]

theorem normalized_west2 : (Vec2.mk (-2) 0).normalized = ⟨-1, 0⟩ := by
  have h2 : (Vec2.mk (-2) 0).norm = 2 := by
    rw [Vec2.norm, show ((-2 : ℝ)) ^ 2 + 0 ^ 2 = 4 by norm_num, sqrt_four]
  rw [Vec2.normalized, h2]
  norm_num

theorem C5aux_parabola (ap : ℝ) (hap : 0 < ap) :
    ConicMirror.intersect ⟨"m", ⟨⟨0, 0⟩, 0⟩, 1, -1, ap⟩ ⟨1, 0⟩ ⟨-1, 0⟩ =
      some ⟨1, ⟨0, 0⟩, ⟨-1, 0⟩, "m", "mirror"⟩ := by
  have hap2 : ¬ (ap / 2 < 0) := by linarith
  rw [ConicMirror.intersect]
  norm_num [Pose2.world_to_local, Pose2.dir_world_to_local, Pose2.local_to_world,
    Pose2.dir_local_to_world, Vec2.sub_def, Vec2.add_def, rotate, normalized_west,
    normalized_west2, hap2]

theorem C5aux_sphere (ap : ℝ) (hap : 0 < ap) :
    ConicMirror.intersect ⟨"m", ⟨⟨0, 0⟩, 0⟩, 1, 0, ap⟩ ⟨1, 0⟩ ⟨-1, 0⟩ =
      some ⟨1, ⟨0, 0⟩, ⟨-1, 0⟩, "m", "mirror"⟩ := by
  have hap2 : ¬ (ap / 2 < 0) := by linarith
  rw [ConicMirror.intersect]
  norm_num [Pose2.world_to_local, Pose2.dir_world_to_local, Pose2.local_to_world,
    Pose2.dir_local_to_world, Vec2.sub_def, Vec2.add_def, rotate, normalized_west,
    normalized_west2, hap2, sqrt_four]

/-- C5: a conic mirror with `κ = -1`, `R = 1` (and any positive aperture), in
its local frame, hit by the ray from `(1,0)` toward `(-1,0)`, reports a hit
at the vertex `(0,0)` with `t = 1`; the same holds for `κ = 0`, `R = 1`. -/
theorem C5_conic_vertex_hits (ap : ℝ) (hap : 0 < ap) :
    (∃ h : Hit, ConicMirror.intersect ⟨"m", ⟨⟨0, 0⟩, 0⟩, 1, -1, ap⟩ ⟨1, 0⟩ ⟨-1, 0⟩ =
      some h ∧ h.t = 1 ∧ h.p_world = ⟨0, 0⟩) ∧
    (∃ h : Hit, ConicMirror.intersect ⟨"m", ⟨⟨0, 0⟩, 0⟩, 1, 0, ap⟩ ⟨1, 0⟩ ⟨-1, 0⟩ =
      some h ∧ h.t = 1 ∧ h.p_world = ⟨0, 0⟩) :=
  ⟨⟨_, C5aux_parabola ap hap, rfl, rfl⟩, ⟨_, C5aux_sphere ap hap, rfl, rfl⟩⟩

/-- C5 witness: aperture 1. -/
theorem C5_conic_vertex_hits_witness :
    (∃ h : Hit, ConicMirror.intersect ⟨"m", ⟨⟨0, 0⟩, 0⟩, 1, -1, 1⟩ ⟨1, 0⟩ ⟨-1, 0⟩ =
      some h ∧ h.t = 1 ∧ h.p_world = ⟨0, 0⟩) ∧
    (∃ h : Hit, ConicMirror.intersect ⟨"m", ⟨⟨0, 0⟩, 0⟩, 1, 0, 1⟩ ⟨1, 0⟩ ⟨-1, 0⟩ =
      some h ∧ h.t = 1 ∧ h.p_world = ⟨0, 0⟩) :=
  C5_conic_vertex_hits 1 one_pos

theorem efStep_fold_inv (q : Vec2) (lines : List RayLine) :
    ∀ acc : EfAcc, (∀ ln ∈ lines, ln.p0 = q) →
      acc.bx = acc.a11 * q.x + acc.a12 * q.y →
      acc.by' = acc.a21 * q.x + acc.a22 * q.y →
      (lines.foldl efStep acc).bx =
          (lines.foldl efStep acc).a11 * q.x + (lines.foldl efStep acc).a12 * q.y ∧
        (lines.foldl efStep acc).by' =
          (lines.foldl efStep acc).a21 * q.x + (lines.foldl efStep acc).a22 * q.y := by
  induction lines with
  | nil => exact fun acc _ hbx hby => ⟨hbx, hby⟩
  | cons x xs ih =>
      intro acc h hbx hby
      rw [List.foldl_cons]
      have hx : x.p0 = q := h x (List.mem_cons_self x xs)
      refine ih _ (fun ln hln => h ln (List.mem_cons_of_mem x hln)) ?_ ?_
      · simp only [efStep, hx]
        rw [hbx]; ring
      · simp only [efStep, hx]
        rw [hby]; ring

theorem efNormal_p0_const (q : Vec2) (lines : List RayLine)
    (hall : ∀ ln ∈ lines, ln.p0 = q) :
    (efNormal lines).bx =
        (efNormal lines).a11 * q.x + (efNormal lines).a12 * q.y ∧
      (efNormal lines).by' =
        (efNormal lines).a21 * q.x + (efNormal lines).a22 * q.y := by
  simpa [efNormal] using
    efStep_fold_inv q lines ⟨0, 0, 0, 0, 0, 0⟩ hall
      (by show (0 : ℝ) = 0 * q.x + 0 * q.y; ring)
      (by show (0 : ℝ) = 0 * q.x + 0 * q.y; ring)

/-- C3 (amended): when every line's stored origin point is the common point
`q` itself and the accumulated normal matrix passes the determinant
threshold, `estimate_focus` returns exactly `(q, 0)`; it returns no result
when there are fewer than 2 lines, and no result when the determinant is
below the `1e-12` threshold. (For lines through `q` whose origins lie
elsewhere the `+1e-15` normalization regularizer shifts the result off `q` —
see the counterexample.) -/
theorem C3_least_squares_focus :
    (∀ (q : Vec2) (lines : List RayLine),
       (∀ ln ∈ lines, ln.p0 = q) → 2 ≤ lines.length →
       1e-12 ≤ |(efNormal lines).a11 * (efNormal lines).a22 -
         (efNormal lines).a12 * (efNormal lines).a21| →
       estimate_focus lines = some (q, 0)) ∧
    (∀ lines : List RayLine, lines.length < 2 → estimate_focus lines = none) ∧
    (∀ lines : List RayLine,
       |(efNormal lines).a11 * (efNormal lines).a22 -
         (efNormal lines).a12 * (efNormal lines).a21| < 1e-12 →
       estimate_focus lines = none) := by
  refine ⟨?_, ?_, ?_⟩
  · intro q lines hall hlen hdet
    have hdne : (efNormal lines).a11 * (efNormal lines).a22 -
        (efNormal lines).a12 * (efNormal lines).a21 ≠ 0 := by
      intro h0
      rw [h0, abs_zero] at hdet
      norm_num at hdet
    obtain ⟨hbx, hby⟩ := efNormal_p0_const q lines hall
    have hfx : ((efNormal lines).bx * (efNormal lines).a22 -
        (efNormal lines).by' * (efNormal lines).a12) /
        ((efNormal lines).a11 * (efNormal lines).a22 -
          (efNormal lines).a12 * (efNormal lines).a21) = q.x := by
      rw [div_eq_iff hdne, hbx, hby]; ring
    have hfy : (((efNormal lines).a11 * (efNormal lines).by' -
        (efNormal lines).a21 * (efNormal lines).bx)) /
        ((efNormal lines).a11 * (efNormal lines).a22 -
          (efNormal lines).a12 * (efNormal lines).a21) = q.y := by
      rw [div_eq_iff hdne, hbx, hby]; ring
    simp only [estimate_focus]
    rw [if_neg (by omega : ¬ lines.length < 2), if_neg (not_lt.mpr hdet), hfx, hfy]
    have hq : (⟨q.x, q.y⟩ : Vec2) = q := rfl
    rw [hq]
    have hds : ∀ r ∈ (lines.map (efPerpDist q)).map (fun v => v ^ 2), r = 0 := by
      intro r hr
      rw [List.map_map, List.mem_map] at hr
      obtain ⟨ln, hln, rfl⟩ := hr
      simp [efPerpDist, hall ln hln]
    have hrms : (if (lines.map (efPerpDist q)).isEmpty = true then (0 : ℝ)
        else Real.sqrt (listMean ((lines.map (efPerpDist q)).map fun v => v ^ 2))) =
        (0 : ℝ) := by
      split
      · rfl
      · rw [listMean, List.sum_eq_zero hds, zero_div, Real.sqrt_zero]
    rw [hrms]
  · intro lines h
    simp only [estimate_focus]
    rw [if_pos h]
  · intro lines hdet
    simp only [estimate_focus]
    by_cases hl : lines.length < 2
    · rw [if_pos hl]
    · rw [if_neg hl, if_pos hdet]

/-- C3 witness: two perpendicular unit lines whose origin points are both the
common point `(3, 4)`. -/
theorem C3_least_squares_focus_witness :
    estimate_focus [⟨⟨3, 4⟩, ⟨1, 0⟩⟩, ⟨⟨3, 4⟩, ⟨0, 1⟩⟩] = some (⟨3, 4⟩, 0) :=
  C3_least_squares_focus.1 ⟨3, 4⟩ [⟨⟨3, 4⟩, ⟨1, 0⟩⟩, ⟨⟨3, 4⟩, ⟨0, 1⟩⟩]
    (by
      intro ln hln
      simp only [List.mem_cons, List.not_mem_nil, or_false] at hln
      rcases hln with rfl | rfl <;> rfl)
    (by norm_num)
    (by
      refine le_trans ?_ (le_abs_self _)
      norm_num [efNormal, efStep, List.foldl_cons, List.foldl_nil])

/-- C3 counterexample: the lines `(-1,0) + t(1,0)` and `(0,-1) + t(0,1)` both
pass through `(0,0)` and are non-parallel, yet `estimate_focus` does not
return exactly `((0,0), 0)`: the `+1e-15` regularization of the direction
norms perturbs the least-squares solution away from the common point. -/
theorem C3_exact_focus_counterexample :
    estimate_focus [⟨⟨-1, 0⟩, ⟨1, 0⟩⟩, ⟨⟨0, -1⟩, ⟨0, 1⟩⟩] ≠ some (⟨0, 0⟩, 0) := by
  intro hEq
  simp only [estimate_focus, efNormal, List.foldl_cons, List.foldl_nil, efStep,
    List.length_cons, List.length_nil] at hEq
  norm_num at hEq

theorem mirCE_miss (a c : ℝ) (ha : a ≤ 3 / 2) (hc : 1 / 200 < |c|) :
    mirCE.intersect ⟨a, c⟩ ⟨1, 0⟩ = none := by
  rw [ConicMirror.intersect]
  norm_num [mirCE, Pose2.world_to_local, Pose2.dir_world_to_local, rotate,
    Vec2.sub_def, normalized_east]
  have h1 : ¬ ((2 * (a - 2) - c * c) / (-2 : ℝ) ≤ 1 / 1000000000) := by
    rw [show (2 * (a - 2) - c * c) / (-2 : ℝ) = (c * c - 2 * a + 4) / 2 by ring,
      not_le]
    nlinarith [mul_self_nonneg c]
  have h2 : ¬ (a - 2 + (2 * (a - 2) - c * c) / (-2 : ℝ) < -(1 / 1000000000)) := by
    rw [show a - 2 + (2 * (a - 2) - c * c) / (-2 : ℝ) = c * c / 2 by ring, not_lt]
    nlinarith [mul_self_nonneg c]
  rw [if_neg h1, if_neg h2, if_pos hc]

theorem mirCE_hit_axis (a : ℝ) (ha : a ≤ 3 / 2) :
    mirCE.intersect ⟨a, 0⟩ ⟨1, 0⟩ = some ⟨2 - a, ⟨2, 0⟩, ⟨-1, 0⟩, "m", "mirror"⟩ := by
  rw [ConicMirror.intersect]
  norm_num [mirCE, Pose2.world_to_local, Pose2.dir_world_to_local,
    Pose2.local_to_world, Pose2.dir_local_to_world, rotate,
    Vec2.sub_def, Vec2.add_def, normalized_east, normalized_west2]
  rw [show (2 * (a - 2) / (-2 : ℝ)) = 2 - a by ring]
  rw [if_neg (by rw [not_le]; linarith : ¬ ((2 : ℝ) - a ≤ 1 / 1000000000))]
  rw [show a - 2 + (2 - a) = (0 : ℝ) by ring]
  rw [if_neg (by norm_num : ¬ ((0 : ℝ) < -(1 / 1000000000)))]
  norm_num [normalized_west2, normalized_west]

theorem mirCE_miss_back (a : ℝ) (ha : a ≤ 2) :
    mirCE.intersect ⟨a, 0⟩ ⟨-1, 0⟩ = none := by
  rw [ConicMirror.intersect]
  norm_num [mirCE, Pose2.world_to_local, Pose2.dir_world_to_local, rotate,
    Vec2.sub_def, normalized_west]
  rw [if_pos (by linarith : a ≤ (2000000001 : ℝ) / 1000000000)]

theorem senCE_hit_fwd (a c : ℝ) (ha : a ≤ 1 / 2) (hc : |c| ≤ 1 / 2) :
    senCE.intersect ⟨a, c⟩ ⟨1, 0⟩ = some ⟨1 - a, ⟨1, c⟩, ⟨1, 0⟩, "det", "sensor"⟩ := by
  rw [Sensor.intersect]
  norm_num [senCE, Pose2.world_to_local, Pose2.dir_world_to_local,
    Pose2.local_to_world, Pose2.dir_local_to_world, rotate,
    Vec2.sub_def, Vec2.add_def, normalized_east]
  exact ⟨by linarith, fun h => absurd h (not_lt.mpr hc)⟩

theorem senCE_miss_fwd (a c : ℝ) (ha : 1 - 1 / 1000000000 ≤ a) :
    senCE.intersect ⟨a, c⟩ ⟨1, 0⟩ = none := by
  rw [Sensor.intersect]
  norm_num [senCE, Pose2.world_to_local, Pose2.dir_world_to_local, rotate,
    Vec2.sub_def, normalized_east]
  intro h h2
  exact absurd h (by rw [not_lt]; linarith)

theorem senCE_hit_back :
    senCE.intersect ⟨1999999 / 1000000, 0⟩ ⟨-1, 0⟩ =
      some ⟨999999 / 1000000, ⟨1, 0⟩, ⟨1, 0⟩, "det", "sensor"⟩ := by
  rw [Sensor.intersect]
  norm_num [senCE, Pose2.world_to_local, Pose2.dir_world_to_local,
    Pose2.local_to_world, Pose2.dir_local_to_world, rotate,
    Vec2.sub_def, Vec2.add_def, normalized_west, normalized_east]

theorem senCE_miss_back :
    senCE.intersect ⟨999999 / 1000000, 0⟩ ⟨-1, 0⟩ = none := by
  rw [Sensor.intersect]
  norm_num [senCE, Pose2.world_to_local, Pose2.dir_world_to_local, rotate,
    Vec2.sub_def, normalized_west]

theorem reflect_back : mirCE.reflect ⟨1, 0⟩ ⟨-1, 0⟩ = ⟨-1, 0⟩ := by
  rw [ConicMirror.reflect]
  norm_num [normalized_east, normalized_west, Vec2.dot, Vec2.smul, Vec2.sub_def]

theorem trace_off (c : ℝ) (h1 : 1 / 200 < |c|) (h2 : |c| ≤ 1 / 2)
    (m : List (String × ℕ)) :
    traceOne ⟨0, c⟩ ⟨1, 0⟩ [] [mirCE] [senCE] m 3 5 =
      ([⟨0, c⟩, ⟨1, c⟩, ⟨6 + 1e-6, c⟩], bumpHits m ("det")) := by
  rw [traceOne, normalized_east, traceLoop]
  simp only [scanLenses, scanMirrors, scanSensors, List.foldl_cons, List.foldl_nil,
    mirCE_miss 0 c (by norm_num) h1, senCE_hit_fwd 0 c (by norm_num) h2,
    Picked.hit, Vec2.smul, Vec2.add_def]
  norm_num
  show traceLoop [] [mirCE] [senCE] 5 (2 + 1) [⟨0, c⟩, ⟨1, c⟩]
    ⟨1000001 / 1000000, c⟩ ⟨1, 0⟩ (bumpHits m ("det")) = _
  rw [traceLoop]
  simp only [scanLenses, scanMirrors, scanSensors, List.foldl_cons, List.foldl_nil,
    mirCE_miss (1000001 / 1000000) c (by norm_num) h1,
    senCE_miss_fwd (1000001 / 1000000) c (by norm_num),
    Vec2.smul, Vec2.add_def]
  norm_num

theorem trace_axis (m : List (String × ℕ)) :
    traceOne ⟨0, 0⟩ ⟨1, 0⟩ [] [mirCE] [senCE] m 3 5 =
      ([⟨0, 0⟩, ⟨1, 0⟩, ⟨2, 0⟩, ⟨1, 0⟩, ⟨-4000001 / 1000000, 0⟩],
        bumpHits (bumpHits m ("det")) ("det")) := by
  rw [traceOne, normalized_east, traceLoop]
  simp only [scanLenses, scanMirrors, scanSensors, List.foldl_cons, List.foldl_nil,
    mirCE_hit_axis 0 (by norm_num), senCE_hit_fwd 0 0 (by norm_num) (by norm_num),
    Picked.hit, Vec2.smul, Vec2.add_def]
  norm_num
  show traceLoop [] [mirCE] [senCE] 5 (2 + 1) [⟨0, 0⟩, ⟨1, 0⟩]
    ⟨1000001 / 1000000, 0⟩ ⟨1, 0⟩ (bumpHits m ("det")) = _
  rw [traceLoop]
  simp only [scanLenses, scanMirrors, scanSensors, List.foldl_cons, List.foldl_nil,
    mirCE_hit_axis (1000001 / 1000000) (by norm_num),
    senCE_miss_fwd (1000001 / 1000000) 0 (by norm_num),
    Picked.hit, reflect_back, Vec2.smul, Vec2.add_def]
  norm_num
  show traceLoop [] [mirCE] [senCE] 5 (1 + 1) [⟨0, 0⟩, ⟨1, 0⟩, ⟨2, 0⟩]
    ⟨1999999 / 1000000, 0⟩ ⟨-1, 0⟩ (bumpHits m ("det")) = _
  rw [traceLoop]
  simp only [scanLenses, scanMirrors, scanSensors, List.foldl_cons, List.foldl_nil,
    mirCE_miss_back (1999999 / 1000000) (by norm_num), senCE_hit_back,
    Picked.hit, Vec2.smul, Vec2.add_def]
  norm_num
  show traceLoop [] [mirCE] [senCE] 5 (0 + 1) [⟨0, 0⟩, ⟨1, 0⟩, ⟨2, 0⟩, ⟨1, 0⟩]
    ⟨999999 / 1000000, 0⟩ ⟨-1, 0⟩ (bumpHits (bumpHits m ("det")) ("det")) = _
  rw [traceLoop]
  simp only [scanLenses, scanMirrors, scanSensors, List.foldl_cons, List.foldl_nil,
    mirCE_miss_back (999999 / 1000000) (by norm_num), senCE_miss_back,
    Vec2.smul, Vec2.add_def]
  norm_num

theorem stepCE_off_hits (st : EmState) (i : ℕ) (hle : i ≤ 10) (h5 : i ≠ 5) :
    (collimatedStep [] [mirCE] [senCE] settingsCE ⟨0, 0⟩ ⟨0, 1⟩ (1 / 2) 0 10 st i).hits
        = bumpHits st.hits ("det") ∧
      (collimatedStep [] [mirCE] [senCE] settingsCE ⟨0, 0⟩ ⟨0, 1⟩ (1 / 2) 0 10 st
          i).totalRays
        = st.totalRays := by
  rw [collimatedStep]
  norm_num [settingsCE, jitterAngle, emitTraceStep, Vec2.smul, Vec2.add_def,
    normalized_east]
  have h0 : (0 : ℝ) ≤ (i : ℝ) := Nat.cast_nonneg i
  have hcast : (i : ℝ) ≤ 10 := by exact_mod_cast hle
  have hsplit : (i : ℝ) ≤ 4 ∨ 6 ≤ (i : ℝ) := by
    rcases Nat.lt_or_ge i 5 with h | h
    · left
      exact_mod_cast Nat.le_of_lt_succ h
    · right
      have h6 : 6 ≤ i := by omega
      exact_mod_cast h6
  have hb1 : 1 / 200 < |(-(1 / 4) + 1 / 2 * ((i : ℝ) / 10))| := by
    rcases hsplit with h | h
    · rw [lt_abs]; right; linarith
    · rw [lt_abs]; left; linarith
  have hb2 : |(-(1 / 4) + 1 / 2 * ((i : ℝ) / 10))| ≤ 1 / 2 := by
    rw [abs_le]
    constructor <;> linarith
  rw [trace_off _ hb1 hb2]

theorem stepCE_axis_hits (st : EmState) :
    (collimatedStep [] [mirCE] [senCE] settingsCE ⟨0, 0⟩ ⟨0, 1⟩ (1 / 2) 0 10 st 5).hits
        = bumpHits (bumpHits st.hits ("det")) ("det") ∧
      (collimatedStep [] [mirCE] [senCE] settingsCE ⟨0, 0⟩ ⟨0, 1⟩ (1 / 2) 0 10 st
          5).totalRays
        = st.totalRays := by
  rw [collimatedStep]
  norm_num [settingsCE, jitterAngle, emitTraceStep, Vec2.smul, Vec2.add_def,
    normalized_east, trace_axis]

theorem bump_det (k : ℕ) :
    bumpHits [(("det" : String), k)] ("det") = [(("det" : String), k + 1)] := by
  rw [bumpHits]
  simp

theorem foldCE_final (st : EmState) (hh : st.hits = [(("det" : String), 0)]) :
    (((List.range 11).foldl
        (collimatedStep [] [mirCE] [senCE] settingsCE ⟨0, 0⟩ ⟨0, 1⟩ (1 / 2) 0 10)
        st).hits = [(("det" : String), 12)]) ∧
    (((List.range 11).foldl
        (collimatedStep [] [mirCE] [senCE] settingsCE ⟨0, 0⟩ ⟨0, 1⟩ (1 / 2) 0 10)
        st).totalRays = st.totalRays) := by
  have hrange : List.range 11 = [0, 1, 2, 3, 4, 5, 6, 7, 8, 9, 10] := rfl
  rw [hrange]
  simp only [List.foldl_cons, List.foldl_nil]
  constructor
  · rw [(stepCE_off_hits _ 10 (by norm_num) (by norm_num)).1,
      (stepCE_off_hits _ 9 (by norm_num) (by norm_num)).1,
      (stepCE_off_hits _ 8 (by norm_num) (by norm_num)).1,
      (stepCE_off_hits _ 7 (by norm_num) (by norm_num)).1,
      (stepCE_off_hits _ 6 (by norm_num) (by norm_num)).1,
      (stepCE_axis_hits _).1,
      (stepCE_off_hits _ 4 (by norm_num) (by norm_num)).1,
      (stepCE_off_hits _ 3 (by norm_num) (by norm_num)).1,
      (stepCE_off_hits _ 2 (by norm_num) (by norm_num)).1,
      (stepCE_off_hits _ 1 (by norm_num) (by norm_num)).1,
      (stepCE_off_hits _ 0 (by norm_num) (by norm_num)).1,
      hh, bump_det, bump_det, bump_det, bump_det, bump_det, bump_det, bump_det,
      bump_det, bump_det, bump_det, bump_det, bump_det]
  · rw [(stepCE_off_hits _ 10 (by norm_num) (by norm_num)).2,
      (stepCE_off_hits _ 9 (by norm_num) (by norm_num)).2,
      (stepCE_off_hits _ 8 (by norm_num) (by norm_num)).2,
      (stepCE_off_hits _ 7 (by norm_num) (by norm_num)).2,
      (stepCE_off_hits _ 6 (by norm_num) (by norm_num)).2,
      (stepCE_axis_hits _).2,
      (stepCE_off_hits _ 4 (by norm_num) (by norm_num)).2,
      (stepCE_off_hits _ 3 (by norm_num) (by norm_num)).2,
      (stepCE_off_hits _ 2 (by norm_num) (by norm_num)).2,
      (stepCE_off_hits _ 1 (by norm_num) (by norm_num)).2,
      (stepCE_off_hits _ 0 (by norm_num) (by norm_num)).2]

theorem emissionCE (stream : ℕ → ℝ) :
    (emissionFinal stream sceneCE).hits = [(("det" : String), 12)] ∧
    (emissionFinal stream sceneCE).totalRays = 11 := by
  have hl : sceneCE.lenses.map mkLens = [] := rfl
  have hm : sceneCE.mirrors.map mkMirror = [mirCE] := rfl
  have hs : sceneCE.sensors.map mkSensor = [senCE] := rfl
  have hsrc : sceneCE.sources = [⟨"s", "collimated", ⟨0, 0⟩, 1, 11, 0, 1 / 2⟩] := rfl
  have hset : sceneCE.settings = settingsCE := rfl
  rw [emissionFinal, hl, hm, hs, hsrc, hset, List.foldl_cons, List.foldl_nil,
    processSource]
  norm_num [emInit, normalized_east, normalized_north, Vec2.perp]
  simp only [show (11 : ℤ).toNat = 11 from rfl, show (1 ⊔ (11 - 1 : ℕ)) = 10 from rfl,
    show senCE.id = "det" from rfl]
  exact ⟨(foldCE_final _ rfl).1, (foldCE_final _ rfl).2⟩

theorem pyRound2_CE : pyRound2 ((1200 : ℝ) / 11) = 10909 / 100 := by
  rw [pyRound2, round_eq]
  have hfl : ⌊(1200 : ℝ) / 11 * 100 + 1 / 2⌋ = 10909 := by
    rw [Int.floor_eq_iff]
    constructor <;> norm_num
  rw [hfl]
  norm_num

/-- C2 counterexample: in `sceneCE` the axis ray crosses the sensor twice (on
the way in and again after reflecting off the mirror), so the reported hit
count is 12 for 11 emitted rays and the reported percentage is
`round2(12/11*100) = 109.09`, which exceeds 100, refuting the claim's bound. -/
theorem C2_sensor_percentage_counterexample :
    (simulateScene (fun _ _ => 0) (fun _ => 0) sceneCE).analysis.sensors =
        some [(("det" : String), SensorStat.mk 12 (10909 / 100))] ∧
      (100 : ℝ) < 10909 / 100 := by
  refine ⟨?_, by norm_num⟩
  obtain ⟨hh, ht⟩ :=
    emissionCE (seedStream (fun _ _ => 0) (fun _ => 0) sceneCE.settings.seed)
  rw [simulateScene, simulateSceneWith]
  simp only [hh, ht, show (sceneCE.sensors.map mkSensor).isEmpty = false from rfl,
    List.map_cons, List.map_nil, Bool.false_eq_true, if_false]
  norm_num [pyRound2_CE]

/-- C2 (amended): each reported sensor percentage equals the sensor's tally
divided by the total number of emitted rays, times 100, rounded to 2 decimal
places (0 when no rays were emitted). The tally counts every crossing, and a
ray bouncing back can cross the same sensor more than once, so the percentage
can exceed 100 — see the counterexample. -/
theorem C2_sensor_percentage_amended (npRandom : ℤ → ℕ → ℝ) (entropy : ℕ → ℝ) (scene : Scene)
    (hsen : scene.sensors ≠ []) :
    (simulateScene npRandom entropy scene).analysis.sensors =
      some ((emissionFinal (seedStream npRandom entropy scene.settings.seed)
          scene).hits.map
        (fun kv => (kv.1, SensorStat.mk kv.2
          (pyRound2 (if 0 < (emissionFinal (seedStream npRandom entropy
                scene.settings.seed) scene).totalRays then
              (kv.2 : ℝ) / ((emissionFinal (seedStream npRandom entropy
                scene.settings.seed) scene).totalRays : ℝ) * 100
            else 0))))) := by
  rw [simulateScene, simulateSceneWith]
  have hse : (scene.sensors.map mkSensor).isEmpty = false := by
    rcases h : scene.sensors with _ | ⟨a, r⟩
    · exact absurd h hsen
    · rfl
  simp only [hse, Bool.false_eq_true, if_false]

/-- C2 witness: a sensor-only scene. -/
theorem C2_sensor_percentage_amended_witness :
    (simulateScene (fun _ _ => 0) (fun _ => 0)
        ⟨[], [], [], [⟨"d0", ⟨0, 0⟩, 0, 1⟩], ⟨0, 1, 0, some 0⟩⟩).analysis.sensors =
      some ((emissionFinal (seedStream (fun _ _ => 0) (fun _ => 0) (some 0))
          ⟨[], [], [], [⟨"d0", ⟨0, 0⟩, 0, 1⟩], ⟨0, 1, 0, some 0⟩⟩).hits.map
        (fun kv => (kv.1, SensorStat.mk kv.2
          (pyRound2 (if 0 < (emissionFinal (seedStream (fun _ _ => 0) (fun _ => 0)
                (some 0))
                ⟨[], [], [], [⟨"d0", ⟨0, 0⟩, 0, 1⟩], ⟨0, 1, 0, some 0⟩⟩).totalRays then
              (kv.2 : ℝ) / ((emissionFinal (seedStream (fun _ _ => 0) (fun _ => 0)
                (some 0))
                ⟨[], [], [], [⟨"d0", ⟨0, 0⟩, 0, 1⟩], ⟨0, 1, 0, some 0⟩⟩).totalRays : ℝ) *
                100
            else 0))))) :=
  C2_sensor_percentage_amended (fun _ _ => 0) (fun _ => 0) _ (List.cons_ne_nil _ _)

end
